import Mathlib

/-!
Verification of the OpenC2 mission-element renderer core: the terrain
elevation sampler and cache (src/renderer/terrainSampler.js,
src/renderer/terrainCache.js), the 3D extrusion of zoned elements, the
pointer gesture state machine, and the edit handler of the main renderer
component.  Each definition is a shallow embedding of the corresponding
JavaScript function; machine arithmetic (32-bit wrap in the djb2 hash) is
made explicit, coordinates are modelled over the rationals, and the
fallible terrain collaborator is modelled with an Except result.

The file is organised as definitions first, then the theorems.
-/

/-! ## Data model -/

mutual
/-- JS coordinate arrays are nested arrays whose leaves are number arrays
of the form [lng, lat] or [lng, lat, z].  A leaf is a point with an
optional third (elevation) component; interior nodes are arrays of
coordinate structures (rings, polygons, line strings). -/
inductive Coords where
  | point (x y : ℚ) (z : Option ℚ)
  | nested (cs : CoordsList)

/-- An array of coordinate structures (element list of a JS array). -/
inductive CoordsList where
  | nil
  | cons (head : Coords) (tail : CoordsList)
end

/-- View of a coordinate array as a Lean list of its elements. -/
def CoordsList.toList : CoordsList → List Coords
  | .nil => []
  | .cons c rest => c :: rest.toList

/-- Build a coordinate array from a Lean list. -/
def CoordsList.ofList : List Coords → CoordsList
  | [] => .nil
  | c :: rest => .cons c (CoordsList.ofList rest)

mutual
/-- stripElevation from the onEdit handler (renderer component in
terrainCache.js): recursively keeps only the first two entries of each
leaf coordinate, so stored geometry is always 2D. -/
def stripElevation : Coords → Coords
  | .point x y _ => .point x y none
  | .nested cs => .nested (stripElevationList cs)

/-- Elementwise stripElevation over a coordinate array (the coords.map
in the source). -/
def stripElevationList : CoordsList → CoordsList
  | .nil => .nil
  | .cons c rest => .cons (stripElevation c) (stripElevationList rest)
end

mutual
/-- A coordinate structure is 2D when no leaf carries a third component. -/
def coords2D : Coords → Bool
  | .point _ _ z => z.isNone
  | .nested cs => coords2DList cs

/-- All members of a coordinate array are 2D. -/
def coords2DList : CoordsList → Bool
  | .nil => true
  | .cons c rest => coords2D c && coords2DList rest
end

/-- Type-dependent altitude parameters of a mission element
(feature.properties in the source).  featureType is the raw mode/type
string used by the renderer: "nfz", "geofence", "searchZone",
"airRoute", "groundRoute" or "searchPoint". -/
structure Props where
  featureType : Option String
  altitude : Option ℚ
  floor : Option ℚ
  ceiling : Option ℚ
deriving DecidableEq

/-- A GeoJSON feature of the mission-element collection. -/
structure Feature where
  properties : Props
  geometry : Coords

/-- The renderer state touched by the edit handler and the delete key:
activeMode ("view", "modify", or a draw mode named after the feature
type), the authoritative collection, and the selected indices. -/
structure EditorState where
  activeMode : String
  geoJson : List Feature
  selectedFeatureIndexes : List ℕ

/-! ## Edit handler and delete key (renderer component) -/

/-- DEFAULT_ALTITUDES merged into a freshly drawn feature's properties
(the spread of DEFAULT_ALTITUDES[activeMode] with fallback to the empty
object); groundRoute has an empty default and any other mode falls back
to the empty object. -/
def defaultAltitudeProps (mode : String) (p : Props) : Props :=
  if mode = "geofence" then { p with altitude := some 150 }
  else if mode = "nfz" then { p with floor := some 0, ceiling := some 400 }
  else if mode = "searchZone" then { p with altitude := some 100 }
  else if mode = "airRoute" then { p with altitude := some 50 }
  else p

/-- The onEdit callback of the EditableGeoJsonLayer (renderer component):
strips elevation from all edited geometry, and on an addFeature edit tags
the last feature with the active draw mode and its default altitude
properties, selects it, and returns to view mode; any other edit type
just stores the cleaned data. -/
def onEdit (s : EditorState) (updatedFeatures : List Feature) (isAddFeature : Bool) :
    EditorState :=
  let cleanFeatures := updatedFeatures.map fun f =>
    { f with geometry := stripElevation f.geometry }
  if isAddFeature then
    let lastIdx := cleanFeatures.length - 1
    let finalFeatures := cleanFeatures.enum.map fun p =>
      if p.1 = lastIdx then
        let tagged := { p.2.properties with featureType := some s.activeMode }
        { p.2 with properties := defaultAltitudeProps s.activeMode tagged }
      else p.2
    { s with geoJson := finalFeatures, activeMode := "view",
             selectedFeatureIndexes := [lastIdx] }
  else
    { s with geoJson := cleanFeatures }

/-- The Backspace/Delete branch of handleKeyDown: with a non-empty
selection, remove the selected indices from the collection, clear the
selection and return to view mode. -/
def handleDeleteKey (s : EditorState) : EditorState :=
  if s.selectedFeatureIndexes.length > 0 then
    { s with
      geoJson := ((s.geoJson.enum.filter fun p =>
          ¬ s.selectedFeatureIndexes.contains p.1).map Prod.snd),
      selectedFeatureIndexes := [],
      activeMode := "view" }
  else s

/-- A freshly drawn 3-vertex polygon as delivered by the drawing layer:
one closed ring whose vertices still carry render elevations. -/
def drawnTriangle : Feature :=
  { properties := ⟨none, none, none, none⟩,
    geometry := .nested (.ofList [.nested (.ofList
      [.point 0 0 (some 25), .point 1 0 (some 30),
       .point 0 1 (some 20), .point 0 0 (some 25)])]) }

/-- Editor state at the moment the draw gesture completes: draw:geofence
mode over an empty collection. -/
def geofenceDrawStart : EditorState := ⟨"geofence", [], []⟩

/-- State after the addFeature edit commits the drawn triangle. -/
def geofenceDrawCommitted : EditorState := onEdit geofenceDrawStart [drawnTriangle] true

/-- State after pressing Backspace with the new element selected. -/
def geofenceDeleted : EditorState := handleDeleteKey geofenceDrawCommitted

/-! ## Extrusion engine (unified 3D zoned layers, renderer component) -/

/-- A fully 3D coordinate as consumed by the extrusion code, where a
missing third component has already been defaulted to 0 (the JS idiom
is the expression c[2] with a fallback of 0). -/
structure Coord3 where
  x : ℚ
  y : ℚ
  z : ℚ
deriving DecidableEq

/-- Default coordinate used for out-of-range list reads in the model;
the loop indices of the source never actually reach it. -/
def originCoord : Coord3 := ⟨0, 0, 0⟩

/-- One wall quad as pushed into wallSegments: corners in source order
(p1 at base, p2 at base, p2 at top, p1 at top). -/
structure WallQuad where
  a : Coord3
  b : Coord3
  c : Coord3
  d : Coord3
deriving DecidableEq

/-- Per-type colors of STYLE_MAP: wall fill, border, and optional top
cap (null for geofence, which is an open-topped curtain). -/
structure ZoneStyle where
  wall : List ℕ
  border : List ℕ
  cap : Option (List ℕ)
deriving DecidableEq

/-- STYLE_MAP lookup.  The zonedFeatures filter admits only the types
"geofence", "nfz" and "searchZone", so the fallthrough branch is the
searchZone entry. -/
def styleMap (ftype : String) : ZoneStyle :=
  if ftype = "geofence" then ⟨[255, 165, 0, 100], [255, 165, 0, 255], none⟩
  else if ftype = "nfz" then ⟨[220, 53, 69, 90], [220, 53, 69, 255], some [220, 53, 69, 60]⟩
  else ⟨[59, 130, 246, 80], [59, 130, 246, 255], some [59, 130, 246, 50]⟩

/-- The JS expression v || d for an optional numeric property: an absent
value and the falsy number 0 both fall back to the default. -/
def jsOrQ (v : Option ℚ) (d : ℚ) : ℚ :=
  match v with
  | none => d
  | some x => if x = 0 then d else x

/-- Elevation profile resolution of the zonedFeatures loop: baseOffset 0
and topOffset altitude-or-default (150 for geofence, 100 otherwise),
except for nfz which uses floor-or-0 and ceiling-or-400. -/
def resolveOffsets (ftype : String) (altitude floorAlt ceilingAlt : Option ℚ) : ℚ × ℚ :=
  if ftype = "nfz" then (jsOrQ floorAlt 0, jsOrQ ceilingAlt 400)
  else (0, jsOrQ altitude (if ftype = "geofence" then 150 else 100))

/-- Extrusion primitives emitted for one zoned feature. -/
structure ExtrusionResult where
  walls : List WallQuad
  borders : List (List Coord3)
  ceilings : List (List Coord3)
deriving DecidableEq

/-- Body of the zonedFeatures.forEach for one feature: skip outlines
with fewer than 2 vertices, lift the ring to the top offset for the
border (and the ceiling when the type has a cap), then emit one vertical
wall quad per outline edge, treating a ring whose first and last
vertices coincide as explicitly closed. -/
def extrudeFeature (ftype : String) (ring : List Coord3)
    (altitude floorAlt ceilingAlt : Option ℚ) : ExtrusionResult :=
  if ring.length < 2 then ⟨[], [], []⟩ else
  let offsets := resolveOffsets ftype altitude floorAlt ceilingAlt
  let baseOffset := offsets.1
  let topOffset := offsets.2
  let borderPath := ring.map fun p => Coord3.mk p.x p.y (p.z + topOffset)
  let ceilings :=
    match (styleMap ftype).cap with
    | some _ => [ring.map fun p => Coord3.mk p.x p.y (p.z + topOffset)]
    | none => []
  let isClosed := (ring.headD originCoord).x = (ring.getLastD originCoord).x
    ∧ (ring.headD originCoord).y = (ring.getLastD originCoord).y
  let loopCount := if isClosed then ring.length - 1 else ring.length
  let walls := (List.range loopCount).map fun i =>
    let p1 := ring.getD i originCoord
    let p2 := ring.getD ((i + 1) % ring.length) originCoord
    WallQuad.mk ⟨p1.x, p1.y, p1.z + baseOffset⟩ ⟨p2.x, p2.y, p2.z + baseOffset⟩
      ⟨p2.x, p2.y, p2.z + topOffset⟩ ⟨p1.x, p1.y, p1.z + topOffset⟩
  ⟨walls, [borderPath], ceilings⟩

/-- getPath of the airRoute-elevated PathLayer: each vertex lifted by the
feature's altitude, defaulting to 50. -/
def airRouteElevatedPath (coords : List Coord3) (altitude : Option ℚ) : List Coord3 :=
  coords.map fun p => Coord3.mk p.x p.y (p.z + jsOrQ altitude 50)

/-- A 4-vertex square outline given as an explicitly closed ring (first
vertex repeated at the end), all vertices at ground level. -/
def squareRingClosed : List Coord3 :=
  [⟨0, 0, 0⟩, ⟨1, 0, 0⟩, ⟨1, 1, 0⟩, ⟨0, 1, 0⟩, ⟨0, 0, 0⟩]

/-- The same square outline as an implicitly closed ring (no repeated
vertex). -/
def squareRingOpen : List Coord3 :=
  [⟨0, 0, 0⟩, ⟨1, 0, 0⟩, ⟨1, 1, 0⟩, ⟨0, 1, 0⟩]

/-! ## Terrain sampler (terrainSampler.js) -/

/-- TERRAIN_OFFSET: fixed positive offset added to every sampled
elevation to avoid z-fighting with the terrain surface. -/
def TERRAIN_OFFSET : ℚ := 10

/-- INTERPOLATION_POINTS: interpolation granularity per ground-route
segment. -/
def INTERPOLATION_POINTS : ℕ := 15

/-- The map.queryTerrainElevation collaborator: for a (lng, lat) pair it
either throws (error) or returns a nullable number. -/
def TerrainQuery : Type := (ℚ × ℚ) → Except Unit (Option ℚ)

/-- queryElevation: query the collaborator, coalesce a null result to 0
(the JS expression elev with fallback 0) and add TERRAIN_OFFSET; on a
thrown error substitute TERRAIN_OFFSET alone. -/
def queryElevation (q : TerrainQuery) (coord : ℚ × ℚ) : ℚ :=
  match q coord with
  | .error _ => TERRAIN_OFFSET
  | .ok elev => jsOrQ elev 0 + TERRAIN_OFFSET

mutual
/-- addElevationToCoords: rebuild each leaf as [lng, lat, elevation]
(recursing through nested arrays). -/
def addElevationToCoords (q : TerrainQuery) : Coords → Coords
  | .point x y _ => .point x y (some (queryElevation q (x, y)))
  | .nested cs => .nested (addElevationToCoordsList q cs)

/-- Elementwise addElevationToCoords over a coordinate array. -/
def addElevationToCoordsList (q : TerrainQuery) : CoordsList → CoordsList
  | .nil => .nil
  | .cons c rest => .cons (addElevationToCoords q c) (addElevationToCoordsList q rest)
end

mutual
/-- Every leaf of the structure carries exactly the elevation that
queryElevation yields for its horizontal position. -/
def elevationApplied (q : TerrainQuery) : Coords → Bool
  | .point x y z => decide (z = some (queryElevation q (x, y)))
  | .nested cs => elevationAppliedList q cs

/-- elevationApplied over all members of a coordinate array. -/
def elevationAppliedList (q : TerrainQuery) : CoordsList → Bool
  | .nil => true
  | .cons c rest => elevationApplied q c && elevationAppliedList q rest
end

mutual
/-- Number of leaf coordinates of a structure: each one costs exactly
one terrain query in addElevationToCoords. -/
def countPoints : Coords → ℕ
  | .point _ _ _ => 1
  | .nested cs => countPointsList cs

/-- countPoints summed over a coordinate array. -/
def countPointsList : CoordsList → ℕ
  | .nil => 0
  | .cons c rest => countPoints c + countPointsList rest
end

/-- interpolateSegment: numPoints + 1 evenly spaced 2D points from p1 to
p2 inclusive (the loop runs i = 0 .. numPoints). -/
def interpolateSegment (p1 p2 : ℚ × ℚ) (numPoints : ℕ) : List (ℚ × ℚ) :=
  (List.range (numPoints + 1)).map fun (i : ℕ) =>
    let t : ℚ := (i : ℚ) / (numPoints : ℚ)
    (p1.1 + (p2.1 - p1.1) * t, p1.2 + (p2.2 - p1.2) * t)

/-- buildDenseGroundRoutePath: for a route with at least 2 vertices,
interpolate each consecutive pair, drop the first point of every segment
but the first (shift, avoiding duplicate boundary points), and attach a
queried elevation to every remaining point.  The elevation collaborator
is invoked exactly once per emitted point. -/
def buildDenseGroundRoutePath (q : TerrainQuery) (coords : List (ℚ × ℚ)) : List Coord3 :=
  if coords.length < 2 then [] else
  (List.range (coords.length - 1)).flatMap fun i =>
    let seg := interpolateSegment (coords.getD i (0, 0)) (coords.getD (i + 1) (0, 0))
      INTERPOLATION_POINTS
    let seg2 := if 0 < i then seg.tail else seg
    seg2.map fun p => Coord3.mk p.1 p.2 (queryElevation q p)

/-- The horizontal position of a leaf coordinate.  Route geometry is a
LineString: an array of leaf points; the nested fallback never occurs
for well-formed routes. -/
def leafXY : Coords → ℚ × ℚ
  | .point x y _ => (x, y)
  | .nested _ => (0, 0)

/-- The vertex list of a LineString route geometry as (lng, lat) pairs.
Modelled for well-formed route geometry (an array of leaf points); a
bare leaf yields no vertices. -/
def routeCoords : Coords → List (ℚ × ℚ)
  | .nested cs => cs.toList.map leafXY
  | .point _ _ _ => []

/-! ## Geometry hash and terrain cache (terrainCache.js) -/

/-- JS ToInt32: wrap an integer into the signed 32-bit range, as the
expression hash & hash does in the source. -/
def toInt32 (n : ℤ) : ℤ := (n + 2 ^ 31) % 2 ^ 32 - 2 ^ 31

/-- One djb2 step: hash * 33 + charCode with 32-bit wrap both at the
shift (hash << 5) and at the final & (hash & hash). -/
def djb2Step (h : ℤ) (c : Char) : ℤ := toInt32 (toInt32 (h * 32) + h + (c.toNat : ℤ))

/-- The djb2 hash over the UTF-16 code units of a string, seeded with
5381.  The strings hashed here are ASCII, for which Lean characters and
JS code units agree. -/
def djb2 (s : String) : ℤ := s.data.foldl djb2Step 5381

mutual
/-- Model of JSON.stringify on a coordinate structure: bracketed,
comma-separated rendering.  Number rendering is modelled by the rational
toString; only its injectivity on coordinate values matters here. -/
def jsonOfCoords : Coords → String
  | .point x y none => "[" ++ toString x ++ "," ++ toString y ++ "]"
  | .point x y (some z) =>
      "[" ++ toString x ++ "," ++ toString y ++ "," ++ toString z ++ "]"
  | .nested cs => "[" ++ jsonOfCoordsList cs ++ "]"

/-- Comma-separated serialization of the members of an array. -/
def jsonOfCoordsList : CoordsList → String
  | .nil => ""
  | .cons c .nil => jsonOfCoords c
  | .cons c rest => jsonOfCoords c ++ "," ++ jsonOfCoordsList rest
end

/-- JS Number.prototype.toString(16): lowercase hex digits with a minus
sign for negative values. -/
def jsToHex (n : ℤ) : String :=
  if n < 0 then "-" ++ (Nat.toDigits 16 n.natAbs).asString
  else (Nat.toDigits 16 n.natAbs).asString

/-- computeGeometryHash: the string "empty" for a collection without
features, else the 32-bit djb2 hash (rendered in hex) of the
"|"-joined JSON serializations of every feature's coordinates. -/
def computeGeometryHash (features : List Feature) : String :=
  if features.isEmpty then "empty"
  else jsToHex (djb2 (String.intercalate "|"
    (features.map fun f => jsonOfCoords f.geometry)))

/-- One TerrainCache entry: the computed 3D coordinates plus the store
timestamp used for TTL expiry. -/
structure TerrainCacheEntry where
  coords3D : Coords
  timestamp : ℤ

/-- The 30-second TTL of the cache (maxAge, in milliseconds). -/
def CACHE_MAX_AGE : ℤ := 30000

/-- _makeKey: the source builds the string i ++ "_" ++ hex of the djb2
hash of the serialized 2D coordinates; the pair of the feature index and
the 32-bit hash value carries exactly that information. -/
def cacheKey (featureIndex : ℕ) (coords2D : Coords) : ℕ × ℤ :=
  (featureIndex, djb2 (jsonOfCoords coords2D))

/-- First-match association lookup, as Map.prototype.get over the keyed
entries. -/
def cacheFind (key : ℕ × ℤ) :
    List ((ℕ × ℤ) × TerrainCacheEntry) → Option TerrainCacheEntry
  | [] => none
  | kv :: rest => if kv.1 = key then some kv.2 else cacheFind key rest

/-- TerrainCache.get: a missing entry, or one older than CACHE_MAX_AGE
at the time of the call, reads as absent. -/
def cacheGet (now : ℤ) (cache : List ((ℕ × ℤ) × TerrainCacheEntry))
    (featureIndex : ℕ) (coords2D : Coords) : Option Coords :=
  match cacheFind (cacheKey featureIndex coords2D) cache with
  | none => none
  | some e => if now - e.timestamp > CACHE_MAX_AGE then none else some e.coords3D

/-- TerrainCache.set: store under the key with the current timestamp.
Prepending shadows any older entry under cacheFind, which is
observationally Map.prototype.set. -/
def cacheSet (now : ℤ) (cache : List ((ℕ × ℤ) × TerrainCacheEntry))
    (featureIndex : ℕ) (coords2D : Coords) (coords3D : Coords) :
    List ((ℕ × ℤ) × TerrainCacheEntry) :=
  (cacheKey featureIndex coords2D, ⟨coords3D, now⟩) :: cache

/-- The per-feature loop of sampleTerrainAsync: on a cache hit reuse the
cached 3D coordinates without any terrain query, otherwise sample every
coordinate (one query per leaf), store the result, and count the
queries.  The featureIndex is the position in the collection, threaded
as the first argument; batching via requestIdleCallback only chunks this
same sequential work and is immaterial to the result and the count. -/
def samplePass (q : TerrainQuery) (now : ℤ) :
    ℕ → List Feature → List ((ℕ × ℤ) × TerrainCacheEntry) →
    List Feature × List ((ℕ × ℤ) × TerrainCacheEntry) × ℕ
  | _, [], cache => ([], cache, 0)
  | i, f :: rest, cache =>
    match cacheGet now cache i f.geometry with
    | some c3 =>
      let r := samplePass q now (i + 1) rest cache
      ({ f with geometry := c3 } :: r.1, r.2.1, r.2.2)
    | none =>
      let c3 := addElevationToCoords q f.geometry
      let cache1 := cacheSet now cache i f.geometry c3
      let r := samplePass q now (i + 1) rest cache1
      ({ f with geometry := c3 } :: r.1, r.2.1, countPoints f.geometry + r.2.2)

/-- Result of one full sampling pass: the elevated collection, the dense
ground-route paths tagged with their feature index, the updated cache,
and the number of terrain-query invocations issued during the pass. -/
structure SampleOutcome where
  elevatedFeatures : List Feature
  groundRoutePaths : List (ℕ × List Coord3)
  cache : List ((ℕ × ℤ) × TerrainCacheEntry)
  queries : ℕ

/-- sampleTerrainAsync with terrain enabled: the batched per-feature
elevation pass, then a separate pass that rebuilds the dense path of
every groundRoute feature, querying the terrain once per dense point
with no cache involvement. -/
def sampleTerrain (q : TerrainQuery) (now : ℤ) (features : List Feature)
    (cache : List ((ℕ × ℤ) × TerrainCacheEntry)) : SampleOutcome :=
  let mainPass := samplePass q now 0 features cache
  let ground := (features.enum.filter fun p =>
      decide (p.2.properties.featureType = some "groundRoute")).map fun p =>
    (p.1, buildDenseGroundRoutePath q (routeCoords p.2.geometry))
  { elevatedFeatures := mainPass.1,
    groundRoutePaths := ground,
    cache := mainPass.2.1,
    queries := mainPass.2.2 + (ground.map fun g => g.2.length).sum }

/-- A terrain collaborator that always answers elevation 0. -/
def flatTerrain : TerrainQuery := fun _ => .ok (some 0)

/-- A terrain collaborator that throws at lng = 0 and answers elevation
7 everywhere else. -/
def failAtZero : TerrainQuery := fun p => if p.1 = 0 then .error () else .ok (some 7)

/-- A ground route with two vertices. -/
def twoVertexRoute : List (ℚ × ℚ) := [(0, 0), (1, 0)]

/-- A groundRoute feature over the two-vertex route. -/
def groundRouteFeature : Feature :=
  ⟨⟨some "groundRoute", none, none, none⟩,
    .nested (.ofList [.point 0 0 none, .point 1 0 none])⟩

/-- An nfz feature with a square outline, floor 50 and ceiling 200. -/
def nfzSquareFeature : Feature :=
  ⟨⟨some "nfz", none, some 50, some 200⟩,
    .nested (.ofList [.nested (.ofList
      [.point 0 0 none, .point 1 0 none, .point 1 1 none,
       .point 0 1 none, .point 0 0 none])])⟩

/-- A geofence feature sharing the same square outline. -/
def geofenceSquareFeature : Feature :=
  ⟨⟨some "geofence", some 150, none, none⟩,
    .nested (.ofList [.nested (.ofList
      [.point 0 0 none, .point 1 0 none, .point 1 1 none,
       .point 0 1 none, .point 0 0 none])])⟩

/-! ## Picking (pickFeatureAt, renderer component) -/

/-- A successful deck.gl pickObject result: picked.object.featureIndex
is set when an extrusion primitive datum (wall, border or ceiling quad)
was hit, and picked.index is the EditableGeoJsonLayer feature index
(negative when no editable feature was hit). -/
structure PickedResult where
  objectFeatureIndex : Option ℕ
  index : Option ℤ

/-- Feature placeholder for the out-of-range collection read
features[picked.index], whose featureType reads as undefined. -/
def emptyFeature : Feature := ⟨⟨none, none, none, none⟩, .nested .nil⟩

/-- pickFeatureAt: a throwing pickObject or an empty pick is no hit;
an extrusion-primitive hit returns its owning feature index; an
editable-layer hit returns picked.index unless the feature at that
index is a geofence, whose invisible fill must not select it. -/
def pickFeatureAt (features : List Feature)
    (pickResult : Except Unit (Option PickedResult)) : Option ℕ :=
  match pickResult with
  | .error _ => none
  | .ok none => none
  | .ok (some picked) =>
    match picked.objectFeatureIndex with
    | some fi => some fi
    | none =>
      match picked.index with
      | none => none
      | some idx =>
        if 0 ≤ idx then
          if (features.getD idx.toNat emptyFeature).properties.featureType
              = some "geofence" then none
          else some idx.toNat
        else none

/-! ## Gesture state machine (right-button tap vs hold) -/

/-- HOLD_THRESHOLD: hold a right press longer than this (ms) to enter
camera mode. -/
def HOLD_THRESHOLD : ℤ := 200

/-- Camera-control sources of cameraControlRef. -/
inductive CamSource where
  | middle
  | right
  | option
deriving DecidableEq

/-- rightClickRef: press timestamp, whether the press escalated to
camera mode, and whether a context-menu decision is deferred to mouseup
(pendingMenu; its stored coordinates do not affect classification). -/
structure RightClickState where
  startTime : ℤ
  isCameraMode : Bool
  pendingMenu : Bool
deriving DecidableEq

/-- cameraControlRef: whether camera control is active and from which
button (the lastX/lastY drag anchors do not affect classification). -/
structure CameraControlState where
  active : Bool
  source : Option CamSource
deriving DecidableEq

/-- Which context menu opened: the feature menu for a picked feature
index, or the add-element menu. -/
inductive MenuKind where
  | featureMenu (featureIndex : ℕ)
  | addMenu
deriving DecidableEq

/-- The renderer state read and written by the right-button gesture
handlers.  cameraEverActive is history: it latches when camera-control
mode is entered, so that claims about entering camera mode are
expressible on the final state. -/
structure GestureState where
  rightClick : RightClickState
  camera : CameraControlState
  cameraEverActive : Bool
  missionMenu : Option MenuKind
  activeMode : String
  selectedFeatureIndexes : List ℕ
deriving DecidableEq

/-- enterCameraMode. -/
def enterCameraMode (src : CamSource) (s : GestureState) : GestureState :=
  { s with camera := ⟨true, some src⟩, cameraEverActive := true }

/-- exitCameraMode. -/
def exitCameraMode (s : GestureState) : GestureState :=
  { s with camera := ⟨false, none⟩ }

/-- showContextMenuAt: while drawing, cancel the drawing instead of
showing a menu; otherwise pick at the cursor and open the feature menu
on a hit (selecting the feature) or the add-element menu on a miss
(leaving modify mode first). -/
def showContextMenuAt (pick : Option ℕ) (s : GestureState) : GestureState :=
  if s.activeMode ≠ "view" ∧ s.activeMode ≠ "modify" then
    { s with activeMode := "view", selectedFeatureIndexes := [] }
  else
    match pick with
    | some featureIdx =>
      { s with selectedFeatureIndexes := [featureIdx],
               missionMenu := some (.featureMenu featureIdx) }
    | none =>
      let s1 := if s.activeMode = "modify" then
        { s with activeMode := "view", selectedFeatureIndexes := [] } else s
      { s1 with missionMenu := some .addMenu }

/-- handleMouseDown for the secondary button: record the press time and
reset the hold/deferred-menu flags. -/
def handleRightMouseDown (t : ℤ) (s : GestureState) : GestureState :=
  { s with rightClick := ⟨t, false, false⟩ }

/-- handleMouseMove restricted to the right-button logic: a move with
the right button held, no camera active, and the press older than
HOLD_THRESHOLD escalates to camera mode (an active camera then consumes
the drag deltas, which do not affect classification). -/
def handleMouseMoveRight (t : ℤ) (rightHeld : Bool) (s : GestureState) : GestureState :=
  if rightHeld ∧ ¬ s.camera.active ∧ t - s.rightClick.startTime > HOLD_THRESHOLD then
    enterCameraMode .right { s with rightClick.isCameraMode := true }
  else s

/-- handleMouseUp for the secondary button: leave right-button camera
mode, show the deferred menu if one is pending and the gesture never
became camera control, and reset the per-press flags. -/
def handleRightMouseUp (pick : Option ℕ) (s : GestureState) : GestureState :=
  let wasCameraMode := s.rightClick.isCameraMode ∨ s.camera.source = some .right
  let s1 := if s.camera.source = some .right then exitCameraMode s else s
  let s2 := if s1.rightClick.pendingMenu ∧ ¬ wasCameraMode then
    showContextMenuAt pick s1 else s1
  { s2 with rightClick.isCameraMode := false, rightClick.pendingMenu := false }

/-- handleContextMenu: defer to mouseup while the button is still held;
otherwise suppress the menu when the press was held past HOLD_THRESHOLD
or escalated to camera mode, except that an elapsed time beyond 1000ms
is taken for a trackpad tap (which fires contextmenu without mousedown)
and always shows the menu. -/
def handleContextMenuEvent (t : ℤ) (rightHeld : Bool) (pick : Option ℕ)
    (s : GestureState) : GestureState :=
  let elapsed := t - s.rightClick.startTime
  if rightHeld then { s with rightClick.pendingMenu := true }
  else
    let wasCameraMode := s.rightClick.isCameraMode ∨ s.camera.source = some .right
    let isTrackpadTap := elapsed > 1000
    if ¬ isTrackpadTap ∧ (elapsed > HOLD_THRESHOLD ∨ wasCameraMode) then
      exitCameraMode { s with rightClick.isCameraMode := false }
    else
      showContextMenuAt pick { s with rightClick.isCameraMode := false }

/-- The pointer events of one secondary-button gesture, with their
timestamps and whether the right button is reported held (e.buttons bit
2) at that moment. -/
inductive PointerEvent where
  | rightDown (t : ℤ)
  | pointerMove (t : ℤ) (rightHeld : Bool)
  | rightUp (t : ℤ)
  | contextMenu (t : ℤ) (rightHeld : Bool)

/-- Dispatch one event to its handler; the pick result under the cursor
is held fixed across the gesture. -/
def stepGesture (pick : Option ℕ) (s : GestureState) : PointerEvent → GestureState
  | .rightDown t => handleRightMouseDown t s
  | .pointerMove t held => handleMouseMoveRight t held s
  | .rightUp _ => handleRightMouseUp pick s
  | .contextMenu t held => handleContextMenuEvent t held pick s

/-- Run a gesture event trace. -/
def runGesture (pick : Option ℕ) (s : GestureState) (events : List PointerEvent) :
    GestureState :=
  events.foldl (stepGesture pick) s

/-- Quiescent state: view mode, no menu, no camera, nothing selected. -/
def initialGestureState : GestureState :=
  ⟨⟨0, false, false⟩, ⟨false, none⟩, false, none, "view", []⟩

/-- The menu that showContextMenuAt opens in view mode for a given pick
result: the feature menu on a hit, the add menu on a miss. -/
def menuForPick : Option ℕ → MenuKind
  | some i => .featureMenu i
  | none => .addMenu

/-- The property of one wall quad claimed by the spec: a vertical
rectangle whose first two (bottom) corners sit at the base offset, whose
last two (top) corners sit at the top offset, and whose top corners share
the horizontal position of the bottom corners (corner order p1-base,
p2-base, p2-top, p1-top). -/
def wallQuadVertical (q : WallQuad) (offsets : ℚ × ℚ) : Prop :=
  q.a.z = offsets.1 ∧ q.b.z = offsets.1 ∧ q.c.z = offsets.2 ∧ q.d.z = offsets.2
    ∧ q.a.x = q.d.x ∧ q.a.y = q.d.y ∧ q.b.x = q.c.x ∧ q.b.y = q.c.y

/-! ## Theorems -/

mutual
theorem coords2D_stripElevation (c : Coords) : coords2D (stripElevation c) = true := by
  cases c with
  | point x y z => rfl
  | nested cs => exact coords2DList_stripElevationList cs

theorem coords2DList_stripElevationList (cs : CoordsList) :
    coords2DList (stripElevationList cs) = true := by
  cases cs with
  | nil => rfl
  | cons c rest =>
    simp [stripElevationList, coords2DList, coords2D_stripElevation c,
      coords2DList_stripElevationList rest]
end

theorem geometry_ite_properties (cond : Prop) [Decidable cond] (q : Feature) (pr : Props) :
    (if cond then { q with properties := pr } else q).geometry = q.geometry := by
  split <;> rfl

/-- Claim C5: for every element and after every edit operation committed
through the edit handler, the stored 2D geometry in the authoritative
collection contains only [longitude, latitude] pairs and never a third
(elevation) coordinate, even when the edit was performed on
elevation-augmented render geometry. -/
theorem stored_geometry_always_2d (s : EditorState) (updatedFeatures : List Feature)
    (isAddFeature : Bool) :
    ((onEdit s updatedFeatures isAddFeature).geoJson.all fun f =>
      coords2D f.geometry) = true := by
  rw [List.all_eq_true]
  intro f hf
  cases isAddFeature with
  | false =>
    simp only [onEdit, Bool.false_eq_true, if_false] at hf
    obtain ⟨g, _, rfl⟩ := List.mem_map.mp hf
    exact coords2D_stripElevation g.geometry
  | true =>
    simp only [onEdit, if_true] at hf
    obtain ⟨p, hp, rfl⟩ := List.mem_map.mp hf
    rw [geometry_ite_properties]
    have hp2 : p.2 ∈ (updatedFeatures.map fun f =>
        { f with geometry := stripElevation f.geometry }) := by
      have h1 := List.mem_map_of_mem Prod.snd hp
      rwa [List.enum_eq_enumFrom, List.enumFrom_map_snd] at h1
    obtain ⟨g, _, hEq⟩ := List.mem_map.mp hp2
    rw [← hEq]
    exact coords2D_stripElevation g.geometry

/-- Claim C6: completing a draw of a 3-vertex polygon in draw:geofence
mode, starting from an empty collection, appends exactly one element with
featureType geofence and altitude 150, sets the mode to view and the
selection to [0]; pressing Backspace with that selection then removes the
element, leaving an empty collection, view mode, and an empty selection. -/
theorem draw_geofence_then_delete :
    geofenceDrawCommitted.geoJson.map (fun f => f.properties)
        = [⟨some "geofence", some 150, none, none⟩]
      ∧ geofenceDrawCommitted.activeMode = "view"
      ∧ geofenceDrawCommitted.selectedFeatureIndexes = [0]
      ∧ geofenceDeleted.geoJson = []
      ∧ geofenceDeleted.activeMode = "view"
      ∧ geofenceDeleted.selectedFeatureIndexes = [] :=
  ⟨rfl, rfl, rfl, rfl, rfl, rfl⟩

/-- Claim C7, counterexample: the claim says a geofence resolves its
vertical extent to (0, altitude) whenever an altitude parameter is
present, but the JS fallback expression treats the value 0 as absent: a
geofence with altitude 0 extrudes to (0, 150), not (0, 0). -/
theorem resolve_offsets_zero_altitude_counterexample :
    resolveOffsets "geofence" (some 0) none none = (0, 150)
      ∧ resolveOffsets "geofence" (some 0) none none ≠ ((0 : ℚ), (0 : ℚ)) := by
  constructor
  · rfl
  · intro h
    have := congrArg Prod.snd h
    simp [resolveOffsets, jsOrQ] at this

/-- Claim C7 as amended: a no-fly zone resolves its vertical extent to
(floor, ceiling), geofence and searchZone resolve to (0, altitude), and
the air-route path is lifted by altitude; a parameter that is absent or
equal to 0 (a falsy number in JS) falls back to the per-type default:
geofence 150, no-fly zone floor 0 and ceiling 400, searchZone 100,
airRoute 50. -/
theorem resolve_offsets_spec (a fq cq : ℚ) (anyAlt : Option ℚ)
    (ha : a ≠ 0) (hf : fq ≠ 0) (hc : cq ≠ 0) (coords : List Coord3) :
    resolveOffsets "nfz" anyAlt (some fq) (some cq) = (fq, cq)
      ∧ resolveOffsets "nfz" anyAlt none none = (0, 400)
      ∧ resolveOffsets "nfz" anyAlt none (some 0) = (0, 400)
      ∧ resolveOffsets "geofence" (some a) none none = (0, a)
      ∧ resolveOffsets "geofence" none none none = (0, 150)
      ∧ resolveOffsets "geofence" (some 0) none none = (0, 150)
      ∧ resolveOffsets "searchZone" (some a) none none = (0, a)
      ∧ resolveOffsets "searchZone" none none none = (0, 100)
      ∧ resolveOffsets "searchZone" (some 0) none none = (0, 100)
      ∧ airRouteElevatedPath coords (some a)
          = coords.map (fun p => Coord3.mk p.x p.y (p.z + a))
      ∧ airRouteElevatedPath coords none
          = coords.map (fun p => Coord3.mk p.x p.y (p.z + 50)) := by
  refine ⟨?_, rfl, rfl, ?_, rfl, rfl, ?_, rfl, rfl, ?_, rfl⟩
  · simp [resolveOffsets, jsOrQ, hf, hc]
  · simp [resolveOffsets, jsOrQ, ha]
  · simp [resolveOffsets, jsOrQ, ha]
  · simp [airRouteElevatedPath, jsOrQ, ha]

theorem resolve_offsets_spec_witness :
    resolveOffsets "nfz" none (some 50) (some 200) = (50, 200)
      ∧ resolveOffsets "geofence" (some 7) none none = (0, 7)
      ∧ resolveOffsets "searchZone" none none none = (0, 100) :=
  ⟨(resolve_offsets_spec 7 50 200 none (by norm_num) (by norm_num) (by norm_num) []).1,
   (resolve_offsets_spec 7 50 200 none (by norm_num) (by norm_num) (by norm_num) []).2.2.2.1,
   (resolve_offsets_spec 7 50 200 none (by norm_num) (by norm_num) (by norm_num) []).2.2.2.2.2.2.2.1⟩

theorem getLastD_mem_of_ne_nil {α : Type _} (l : List α) (d : α) (h : l ≠ []) :
    l.getLastD d ∈ l := by
  rw [List.getLastD_eq_getLast?, List.getLast?_eq_getLast l h]
  exact List.getLast_mem h

theorem getD_z_eq_zero (ring : List Coord3) (hz : ∀ p ∈ ring, p.z = 0) (i : ℕ) :
    ((ring[i]?).getD originCoord).z = 0 := by
  rcases h : ring[i]? with _ | p
  · rfl
  · exact hz p (List.getElem?_mem h)

theorem headD_z_eq_zero (v : List Coord3) (hz : ∀ p ∈ v, p.z = 0) :
    (v.headD originCoord).z = 0 := by
  cases v with
  | nil => rfl
  | cons a t => exact hz a (List.mem_cons_self a t)

theorem extrudeFeature_walls_shape (ftype : String) (ring : List Coord3)
    (altitude floorAlt ceilingAlt : Option ℚ) (hz : ∀ p ∈ ring, p.z = 0) :
    ∀ q ∈ (extrudeFeature ftype ring altitude floorAlt ceilingAlt).walls,
      wallQuadVertical q (resolveOffsets ftype altitude floorAlt ceilingAlt) := by
  intro q hq
  rw [extrudeFeature] at hq
  by_cases hlen : ring.length < 2
  · rw [if_pos hlen] at hq
    simp at hq
  · rw [if_neg hlen] at hq
    simp only [List.mem_map, List.mem_range] at hq
    obtain ⟨i, _, rfl⟩ := hq
    refine ⟨?_, ?_, ?_, ?_, rfl, rfl, rfl, rfl⟩ <;>
      simp [getD_z_eq_zero ring hz]

theorem extrudeFeature_walls_length_open (ftype : String) (ring : List Coord3)
    (altitude floorAlt ceilingAlt : Option ℚ) (hlen : 2 ≤ ring.length)
    (hne : (ring.headD originCoord).x ≠ (ring.getLastD originCoord).x
        ∨ (ring.headD originCoord).y ≠ (ring.getLastD originCoord).y) :
    (extrudeFeature ftype ring altitude floorAlt ceilingAlt).walls.length = ring.length := by
  rw [extrudeFeature, if_neg (by omega)]
  simp only [List.length_map, List.length_range]
  rw [if_neg]
  rintro ⟨hx, hy⟩
  rcases hne with h | h <;> exact h (by assumption)

theorem extrudeFeature_walls_length_closed (ftype : String) (v : List Coord3)
    (altitude floorAlt ceilingAlt : Option ℚ) (hv : v ≠ []) :
    (extrudeFeature ftype (v ++ [v.headD originCoord]) altitude floorAlt
      ceilingAlt).walls.length = v.length := by
  obtain ⟨a, t, rfl⟩ : ∃ a t, v = a :: t := by
    cases v with
    | nil => exact absurd rfl hv
    | cons a t => exact ⟨a, t, rfl⟩
  rw [extrudeFeature, if_neg (by simp)]
  simp only [List.length_map, List.length_range]
  rw [if_pos]
  · simp
  · constructor <;> rw [List.getLastD_concat] <;> rfl

theorem headD_ne_getLastD_of_pairwise (v : List Coord3) (hn : 3 ≤ v.length)
    (hdist : v.Pairwise fun p r => p.x ≠ r.x ∨ p.y ≠ r.y) :
    (v.headD originCoord).x ≠ (v.getLastD originCoord).x
      ∨ (v.headD originCoord).y ≠ (v.getLastD originCoord).y := by
  cases v with
  | nil => simp at hn
  | cons a t =>
    have ht : t ≠ [] := by
      intro h
      rw [h] at hn
      simp at hn
    rw [List.headD_cons, List.getLastD_cons]
    have hmem : t.getLastD a ∈ t := getLastD_mem_of_ne_nil t a ht
    exact (List.pairwise_cons.mp hdist).1 _ hmem

theorem hz_closed_ring (v : List Coord3) (hz : ∀ p ∈ v, p.z = 0) :
    ∀ p ∈ v ++ [v.headD originCoord], p.z = 0 := by
  intro p hp
  rcases List.mem_append.mp hp with h | h
  · exact hz p h
  · rw [List.mem_singleton.mp h]
    exact headD_z_eq_zero v hz

/-- Claim C1: for every zoned polygonal element whose outline ring has n
distinct vertices, whether the ring is explicitly closed (first vertex
equals last) or implicitly closed, the extrusion step emits exactly n
wall quads, each a vertical rectangle whose two bottom corners lie at the
element's base offset and two top corners at its top offset; in
particular, a no-fly zone with floor 50, ceiling 200 and a 4-vertex
square outline yields exactly 4 wall quads, 1 ceiling, and 1 border. -/
theorem extrusion_wall_quads (v : List Coord3) (ftype : String)
    (altitude floorAlt ceilingAlt : Option ℚ)
    (hz : ∀ p ∈ v, p.z = 0) (hn : 3 ≤ v.length)
    (hdist : v.Pairwise fun p r => p.x ≠ r.x ∨ p.y ≠ r.y) :
    ((extrudeFeature ftype v altitude floorAlt ceilingAlt).walls.length = v.length
      ∧ (extrudeFeature ftype (v ++ [v.headD originCoord]) altitude floorAlt
          ceilingAlt).walls.length = v.length)
      ∧ (∀ q ∈ (extrudeFeature ftype v altitude floorAlt ceilingAlt).walls
            ++ (extrudeFeature ftype (v ++ [v.headD originCoord]) altitude floorAlt
                ceilingAlt).walls,
          wallQuadVertical q (resolveOffsets ftype altitude floorAlt ceilingAlt))
      ∧ ((extrudeFeature "nfz" squareRingClosed none (some 50) (some 200)).walls.length = 4
          ∧ (extrudeFeature "nfz" squareRingClosed none (some 50)
              (some 200)).ceilings.length = 1
          ∧ (extrudeFeature "nfz" squareRingClosed none (some 50)
              (some 200)).borders.length = 1) := by
  refine ⟨⟨?_, ?_⟩, ?_, by decide, by decide, by decide⟩
  · exact extrudeFeature_walls_length_open ftype v altitude floorAlt ceilingAlt
      (by omega) (headD_ne_getLastD_of_pairwise v hn hdist)
  · exact extrudeFeature_walls_length_closed ftype v altitude floorAlt ceilingAlt
      (by intro h; rw [h] at hn; simp at hn)
  · intro q hq
    rcases List.mem_append.mp hq with h | h
    · exact extrudeFeature_walls_shape ftype v altitude floorAlt ceilingAlt hz q h
    · exact extrudeFeature_walls_shape ftype (v ++ [v.headD originCoord]) altitude
        floorAlt ceilingAlt (hz_closed_ring v hz) q h

theorem extrusion_wall_quads_witness :
    (∀ p ∈ squareRingOpen, p.z = 0) ∧ 3 ≤ squareRingOpen.length
      ∧ (extrudeFeature "nfz" squareRingOpen none (some 50) (some 200)).walls.length
          = squareRingOpen.length :=
  ⟨by decide, by decide,
    (extrusion_wall_quads squareRingOpen "nfz" none (some 50) (some 200)
      (by decide) (by decide) (by decide)).1.1⟩

mutual
theorem elevationApplied_addElevation (q : TerrainQuery) (c : Coords) :
    elevationApplied q (addElevationToCoords q c) = true := by
  cases c with
  | point x y z => simp [addElevationToCoords, elevationApplied]
  | nested cs => exact elevationAppliedList_addElevation q cs

theorem elevationAppliedList_addElevation (q : TerrainQuery) (cs : CoordsList) :
    elevationAppliedList q (addElevationToCoordsList q cs) = true := by
  cases cs with
  | nil => rfl
  | cons c rest =>
    simp [addElevationToCoordsList, elevationAppliedList,
      elevationApplied_addElevation q c, elevationAppliedList_addElevation q rest]
end

mutual
theorem strip_addElevation (q : TerrainQuery) (c : Coords) :
    stripElevation (addElevationToCoords q c) = stripElevation c := by
  cases c with
  | point x y z => rfl
  | nested cs =>
    simp [addElevationToCoords, stripElevation, stripList_addElevation q cs]

theorem stripList_addElevation (q : TerrainQuery) (cs : CoordsList) :
    stripElevationList (addElevationToCoordsList q cs) = stripElevationList cs := by
  cases cs with
  | nil => rfl
  | cons c rest =>
    simp [addElevationToCoordsList, stripElevationList, strip_addElevation q c,
      stripList_addElevation q rest]
end

/-- Claim C8: for every coordinate sampled with terrain enabled, the
elevation query either succeeds and the stored z value equals the
queried elevation plus the fixed positive offset of 10, or the query
throws and the failure is non-fatal: the fixed offset 10 is substituted
as the elevation and processing of the remaining coordinates continues
(every leaf of the structure still receives its elevation and the
horizontal layout is unchanged). -/
theorem query_elevation_error_handling (q : TerrainQuery) (x y e : ℚ) :
    (q (x, y) = .ok (some e) → queryElevation q (x, y) = e + TERRAIN_OFFSET)
      ∧ (q (x, y) = .error () → queryElevation q (x, y) = TERRAIN_OFFSET)
      ∧ (∀ c : Coords, elevationApplied q (addElevationToCoords q c) = true)
      ∧ (∀ c : Coords, stripElevation (addElevationToCoords q c) = stripElevation c) := by
  refine ⟨?_, ?_, elevationApplied_addElevation q, strip_addElevation q⟩
  · intro h
    rw [queryElevation, h]
    by_cases he : e = 0
    · subst he; simp [jsOrQ]
    · simp [jsOrQ, he]
  · intro h
    rw [queryElevation, h]

theorem query_elevation_error_handling_witness :
    queryElevation failAtZero (0, 0) = TERRAIN_OFFSET
      ∧ queryElevation failAtZero (1, 2) = 7 + TERRAIN_OFFSET :=
  ⟨(query_elevation_error_handling failAtZero 0 0 7).2.1 rfl,
   (query_elevation_error_handling failAtZero 1 2 7).1 rfl⟩

theorem interpolateSegment_length (p1 p2 : ℚ × ℚ) (n : ℕ) :
    (interpolateSegment p1 p2 n).length = n + 1 := by
  rw [interpolateSegment, List.length_map, List.length_range]

theorem segment_lengths_sum (n : ℕ) (h : 1 ≤ n) :
    ((List.range n).map fun i => if 0 < i then 15 else 16).sum = 15 * n + 1 := by
  induction n with
  | zero => omega
  | succ m ih =>
    rw [List.range_succ, List.map_append, List.sum_append]
    by_cases hm : m = 0
    · subst hm
      decide
    · have h1 : 1 ≤ m := Nat.one_le_iff_ne_zero.mpr hm
      rw [ih h1]
      simp only [List.map_cons, List.map_nil, List.sum_cons, List.sum_nil,
        if_pos (Nat.lt_of_lt_of_le Nat.zero_lt_one h1)]
      omega

theorem interpolateSegment_head (p1 p2 : ℚ × ℚ) (n : ℕ) :
    (interpolateSegment p1 p2 n).head? = some p1 := by
  rw [interpolateSegment]
  cases n with
  | zero =>
    simp
  | succ m =>
    rw [List.range_succ_eq_map, List.map_cons, List.head?_cons]
    simp

theorem interpolateSegment_getLast (p1 p2 : ℚ × ℚ) (n : ℕ) (hn : n ≠ 0) :
    (interpolateSegment p1 p2 n).getLast? = some p2 := by
  rw [interpolateSegment]
  cases n with
  | zero => exact absurd rfl hn
  | succ m =>
    rw [List.range_succ, List.map_append, List.map_cons, List.map_nil,
      List.getLast?_concat]
    have hq : (((m + 1 : ℕ) : ℚ) / ((m + 1 : ℕ) : ℚ)) = 1 := by
      apply div_self
      exact_mod_cast Nat.succ_ne_zero m
    obtain ⟨px, py⟩ := p2
    simp only [hq, mul_one]
    congr 1
    ring_nf

theorem dense_path_two_vertex_endpoints (q : TerrainQuery) (p1 p2 : ℚ × ℚ) :
    (buildDenseGroundRoutePath q [p1, p2]).head?
        = some ⟨p1.1, p1.2, queryElevation q p1⟩
      ∧ (buildDenseGroundRoutePath q [p1, p2]).getLast?
        = some ⟨p2.1, p2.2, queryElevation q p2⟩ := by
  have hbuild : buildDenseGroundRoutePath q [p1, p2]
      = (interpolateSegment p1 p2 INTERPOLATION_POINTS).map
          fun p => Coord3.mk p.1 p.2 (queryElevation q p) := by
    rw [buildDenseGroundRoutePath, if_neg (by simp)]
    show (List.range 1).flatMap _ = _
    rw [show List.range 1 = [0] from rfl, List.flatMap_singleton]
    simp
  constructor
  · rw [hbuild, List.head?_map, interpolateSegment_head]
    rfl
  · rw [hbuild, List.getLast?_map, interpolateSegment_getLast p1 p2 _ (by decide)]
    rfl

/-- Claim C3, counterexample: for a ground route with 2 vertices the
dense path holds 16 sample points (the single segment is interpolated at
parameters i/15 for i = 0..15), not the claimed minimum of 2 + 15 = 17. -/
theorem dense_path_17_counterexample :
    (buildDenseGroundRoutePath flatTerrain twoVertexRoute).length = 16
      ∧ ¬ (2 + 15 ≤ (buildDenseGroundRoutePath flatTerrain twoVertexRoute).length) := by
  constructor
  · decide
  · decide

/-- Claim C3 as amended: with terrain enabled, the dense ground-route
path for a route with k + 1 vertices (k segments) contains exactly
15 k + 1 sample points; a 2-vertex route yields 16 points, 14 interior
plus the 2 endpoints, both of which appear (as first and last dense
point), and shared endpoints at segment boundaries are never duplicated,
as the 15 k + 1 count shows (duplicating boundaries would give 16 k). -/
theorem dense_path_length (q : TerrainQuery) (coords : List (ℚ × ℚ))
    (p1 p2 : ℚ × ℚ) (h : 2 ≤ coords.length) :
    (buildDenseGroundRoutePath q coords).length
        = INTERPOLATION_POINTS * (coords.length - 1) + 1
      ∧ (buildDenseGroundRoutePath q [p1, p2]).head?
          = some ⟨p1.1, p1.2, queryElevation q p1⟩
      ∧ (buildDenseGroundRoutePath q [p1, p2]).getLast?
          = some ⟨p2.1, p2.2, queryElevation q p2⟩ := by
  refine ⟨?_, (dense_path_two_vertex_endpoints q p1 p2).1,
    (dense_path_two_vertex_endpoints q p1 p2).2⟩
  rw [buildDenseGroundRoutePath, if_neg (by omega)]
  rw [List.flatMap_def, List.length_flatten, List.map_map]
  have hmap : ((List.range (coords.length - 1)).map
      (List.length ∘ fun i =>
        (if 0 < i then
          (interpolateSegment (coords.getD i (0, 0)) (coords.getD (i + 1) (0, 0))
            INTERPOLATION_POINTS).tail
         else interpolateSegment (coords.getD i (0, 0)) (coords.getD (i + 1) (0, 0))
            INTERPOLATION_POINTS).map
          fun p => Coord3.mk p.1 p.2 (queryElevation q p)))
      = (List.range (coords.length - 1)).map fun i => if 0 < i then 15 else 16 := by
    apply List.map_congr_left
    intro i _
    simp [Function.comp, interpolateSegment_length, apply_ite List.length,
      INTERPOLATION_POINTS]
  rw [hmap, segment_lengths_sum _ (by omega)]
  rfl

theorem dense_path_length_witness :
    2 ≤ twoVertexRoute.length
      ∧ (buildDenseGroundRoutePath flatTerrain twoVertexRoute).length
          = INTERPOLATION_POINTS * (twoVertexRoute.length - 1) + 1 :=
  ⟨by decide, (dense_path_length flatTerrain twoVertexRoute (0, 0) (1, 0) (by decide)).1⟩

/-- Claim C4, counterexample: the claim says no polygonal zoned element
is selectable through its ground-fill area in the editable-geometry
layer, but pickFeatureAt rejects only geofence fill picks: an
editable-layer pick landing on an nfz returns that feature index. -/
theorem pick_nfz_fill_counterexample :
    pickFeatureAt [nfzSquareFeature] (.ok (some ⟨none, some 0⟩)) = some 0
      ∧ pickFeatureAt [nfzSquareFeature] (.ok (some ⟨none, some 0⟩)) ≠ none := by
  constructor
  · decide
  · decide

/-- Claim C4 as amended: only geofence elements have their
editable-layer ground-fill picks rejected (the pick helper returns no
feature index); an editable-layer pick on any other feature type,
including nfz and searchZone, returns the feature index, an
extrusion-primitive pick (wall, border, ceiling datum) returns its
owning feature index for every type, and a throwing pick degrades to no
hit. -/
theorem pick_feature_disambiguation (features : List Feature) (i fi : ℕ)
    (anyIdx : Option ℤ) :
    ((features.getD i emptyFeature).properties.featureType = some "geofence" →
        pickFeatureAt features (.ok (some ⟨none, some (i : ℤ)⟩)) = none)
      ∧ ((features.getD i emptyFeature).properties.featureType ≠ some "geofence" →
        pickFeatureAt features (.ok (some ⟨none, some (i : ℤ)⟩)) = some i)
      ∧ pickFeatureAt features (.ok (some ⟨some fi, anyIdx⟩)) = some fi
      ∧ pickFeatureAt features (.error ()) = none := by
  refine ⟨?_, ?_, rfl, rfl⟩
  · intro hgeo
    rw [List.getD_eq_getElem?_getD] at hgeo
    simp [pickFeatureAt, Int.toNat_natCast, hgeo]
  · intro hgeo
    rw [List.getD_eq_getElem?_getD] at hgeo
    simp [pickFeatureAt, Int.toNat_natCast, hgeo]

theorem pick_feature_disambiguation_witness :
    pickFeatureAt [geofenceSquareFeature] (.ok (some ⟨none, some ((0 : ℕ) : ℤ)⟩)) = none
      ∧ pickFeatureAt [nfzSquareFeature] (.ok (some ⟨none, some ((0 : ℕ) : ℤ)⟩)) = some 0 :=
  ⟨(pick_feature_disambiguation [geofenceSquareFeature] 0 0 none).1 (by decide),
   (pick_feature_disambiguation [nfzSquareFeature] 0 0 none).2.1 (by decide)⟩

/-- Claim C2, counterexample: the claim says a secondary button held
past 200ms always classifies as a hold, entering camera-control mode and
suppressing the menu on release; but a stationary press of 1500ms never
enters camera mode (camera entry requires pointer movement) and, because
an elapsed time above 1000ms is taken for a trackpad tap, its release
opens the add-element menu. -/
theorem hold_release_menu_counterexample :
    (runGesture none initialGestureState
        [.rightDown 0, .rightUp 1500, .contextMenu 1500 false]).missionMenu
        = some .addMenu
      ∧ (runGesture none initialGestureState
        [.rightDown 0, .rightUp 1500, .contextMenu 1500 false]).cameraEverActive
        = false := by
  constructor
  · decide
  · decide

/-- Claim C2 as amended: a secondary-button press released in under
200ms with no intervening pointer movement classifies as a tap in 100%
of trials: the context menu opens (feature-context menu when the pick
under the cursor succeeds, add-element menu otherwise), whether the
contextmenu event arrives after the release or was deferred while the
button was held.  Camera-control mode is entered when (and only by) a
pointer move with the button held past the 200ms threshold; after such a
hold the menu is suppressed on release whenever the contextmenu event
arrives while the button is still held, or arrives after release no
later than 1000ms after the press; a later contextmenu event (with no
button held) is treated as a trackpad tap and opens the menu. -/
theorem gesture_tap_hold_classification (pick : Option ℕ) (t1 tm tc t2 : ℤ)
    (h1 : t1 < 200) (h2 : 200 < tm) (h3 : tm ≤ t2) (h4 : t2 ≤ 1000) :
    ((runGesture pick initialGestureState
        [.rightDown 0, .rightUp t1, .contextMenu t1 false]).missionMenu
          = some (menuForPick pick)
      ∧ (runGesture pick initialGestureState
          [.rightDown 0, .rightUp t1, .contextMenu t1 false]).cameraEverActive = false)
      ∧ (runGesture pick initialGestureState
          [.rightDown 0, .contextMenu tc true, .rightUp t1]).missionMenu
          = some (menuForPick pick)
      ∧ ((runGesture pick initialGestureState
          [.rightDown 0, .pointerMove tm true, .contextMenu tc true,
           .rightUp t2]).missionMenu = none
        ∧ (runGesture pick initialGestureState
            [.rightDown 0, .pointerMove tm true, .contextMenu tc true,
             .rightUp t2]).cameraEverActive = true)
      ∧ ((runGesture pick initialGestureState
          [.rightDown 0, .pointerMove tm true, .rightUp t2,
           .contextMenu t2 false]).missionMenu = none
        ∧ (runGesture pick initialGestureState
            [.rightDown 0, .pointerMove tm true, .rightUp t2,
             .contextMenu t2 false]).cameraEverActive = true) := by
  have hlt1 : ¬ (HOLD_THRESHOLD < t1) := by
    rw [HOLD_THRESHOLD]; omega
  have hlt2 : HOLD_THRESHOLD < tm := by
    rw [HOLD_THRESHOLD]; omega
  have hlt3 : HOLD_THRESHOLD < t2 := by
    rw [HOLD_THRESHOLD]; omega
  have ht1k : t1 ≤ 1000 := by omega
  refine ⟨⟨?_, ?_⟩, ?_, ⟨?_, ?_⟩, ?_, ?_⟩ <;>
    cases pick <;>
      simp [runGesture, stepGesture, handleRightMouseDown, handleRightMouseUp,
        handleMouseMoveRight, handleContextMenuEvent, showContextMenuAt,
        enterCameraMode, exitCameraMode, initialGestureState, menuForPick,
        hlt1, hlt2, hlt3, ht1k, h4]

theorem gesture_tap_hold_classification_witness :
    (runGesture (some 3) initialGestureState
        [.rightDown 0, .rightUp 100, .contextMenu 100 false]).missionMenu
        = some (menuForPick (some 3))
      ∧ (runGesture (some 3) initialGestureState
          [.rightDown 0, .pointerMove 300 true, .rightUp 400,
           .contextMenu 400 false]).missionMenu = none :=
  ⟨(gesture_tap_hold_classification (some 3) 100 300 300 400
      (by decide) (by decide) (by decide) (by decide)).1.1,
   (gesture_tap_hold_classification (some 3) 100 300 300 400
      (by decide) (by decide) (by decide) (by decide)).2.2.2.1⟩

/-- Claim C10: computeGeometryHash is a deterministic function of only
the features' geometry coordinates: any two collections whose features
have pairwise-identical coordinate structures produce the same hash
regardless of their properties or any other feature fields (so a
property-only edit never changes the hash), and any collection with no
features hashes to the string "empty". -/
theorem geometry_hash_depends_only_on_coordinates :
    (∀ fs1 fs2 : List Feature,
        fs1.map (fun f => f.geometry) = fs2.map (fun f => f.geometry) →
        computeGeometryHash fs1 = computeGeometryHash fs2)
      ∧ computeGeometryHash [] = "empty" := by
  constructor
  · intro fs1 fs2 h
    have hjson : fs1.map (fun f => jsonOfCoords f.geometry)
        = fs2.map (fun f => jsonOfCoords f.geometry) := by
      have h1 : fs1.map (fun f => jsonOfCoords f.geometry)
          = (fs1.map fun f => f.geometry).map jsonOfCoords := by
        rw [List.map_map]
        rfl
      have h2 : fs2.map (fun f => jsonOfCoords f.geometry)
          = (fs2.map fun f => f.geometry).map jsonOfCoords := by
        rw [List.map_map]
        rfl
      rw [h1, h2, h]
    have hempty : fs1.isEmpty = fs2.isEmpty := by
      cases fs1 <;> cases fs2 <;> simp_all
    rw [computeGeometryHash, computeGeometryHash, hempty, hjson]
  · rfl

theorem geometry_hash_witness :
    computeGeometryHash [nfzSquareFeature]
      = computeGeometryHash [geofenceSquareFeature] :=
  geometry_hash_depends_only_on_coordinates.1 [nfzSquareFeature]
    [geofenceSquareFeature] rfl

theorem cacheFind_samplePass (q : TerrainQuery) (now : ℤ) (fs : List Feature) :
    ∀ (i : ℕ) (cache : List ((ℕ × ℤ) × TerrainCacheEntry)) (k : ℕ × ℤ), k.1 < i →
      cacheFind k (samplePass q now i fs cache).2.1 = cacheFind k cache := by
  induction fs with
  | nil => intro i cache k _; rfl
  | cons f0 rest ih =>
    intro i cache k hk
    cases hget : cacheGet now cache i f0.geometry with
    | some c3 =>
      simp only [samplePass, hget]
      exact ih (i + 1) cache k (by omega)
    | none =>
      simp only [samplePass, hget]
      rw [ih (i + 1) _ k (by omega)]
      rw [cacheSet, cacheFind, if_neg]
      intro hcontra
      have hcontra2 : cacheKey i f0.geometry = k := hcontra
      have : (cacheKey i f0.geometry).1 = k.1 := by rw [hcontra2]
      rw [cacheKey] at this
      omega

theorem cacheFind_after_samplePass (q : TerrainQuery) (now : ℤ) (fs : List Feature) :
    ∀ (i : ℕ) (cache : List ((ℕ × ℤ) × TerrainCacheEntry)),
      (∀ (j : ℕ) (f : Feature), fs.get? j = some f →
        cacheFind (cacheKey (i + j) f.geometry) cache = none) →
      ∀ (j : ℕ) (f : Feature), fs.get? j = some f →
        cacheFind (cacheKey (i + j) f.geometry) (samplePass q now i fs cache).2.1
          = some ⟨addElevationToCoords q f.geometry, now⟩ := by
  induction fs with
  | nil => intro i cache _ j f hj; simp at hj
  | cons f0 rest ih =>
    intro i cache hmiss j f hj
    have hm0 : cacheFind (cacheKey i f0.geometry) cache = none := by
      have h := hmiss 0 f0 rfl
      simpa using h
    have hget : cacheGet now cache i f0.geometry = none := by
      rw [cacheGet, hm0]
    simp only [samplePass, hget]
    cases j with
    | zero =>
      have hf : f0 = f := by
        have : some f0 = some f := hj
        exact Option.some.inj this
      subst hf
      rw [Nat.add_zero]
      rw [cacheFind_samplePass q now rest (i + 1) _ _ (by rw [cacheKey]; omega)]
      rw [cacheSet, cacheFind, if_pos rfl]
    | succ j' =>
      have hj' : rest.get? j' = some f := hj
      have hidx : i + (j' + 1) = (i + 1) + j' := by omega
      rw [hidx]
      apply ih (i + 1) _ _ j' f hj'
      intro j2 f2 hj2
      rw [cacheSet, cacheFind, if_neg]
      · have h2 := hmiss (j2 + 1) f2 hj2
        have hidx2 : i + (j2 + 1) = (i + 1) + j2 := by omega
        rwa [hidx2] at h2
      · intro hcontra
        have hcontra2 : cacheKey i f0.geometry = cacheKey (i + 1 + j2) f2.geometry :=
          hcontra
        have : (cacheKey i f0.geometry).1 = (cacheKey (i + 1 + j2) f2.geometry).1 := by
          rw [hcontra2]
        rw [cacheKey, cacheKey] at this
        omega

theorem samplePass_count_zero (q : TerrainQuery) (now : ℤ) (fs : List Feature) :
    ∀ (i : ℕ) (cache : List ((ℕ × ℤ) × TerrainCacheEntry)),
      (∀ (j : ℕ) (f : Feature), fs.get? j = some f →
        cacheGet now cache (i + j) f.geometry ≠ none) →
      (samplePass q now i fs cache).2.2 = 0 := by
  induction fs with
  | nil => intro i cache _; rfl
  | cons f0 rest ih =>
    intro i cache hhit
    have h0 : cacheGet now cache i f0.geometry ≠ none := by
      have h := hhit 0 f0 rfl
      simpa using h
    obtain ⟨c3, hc3⟩ : ∃ c3, cacheGet now cache i f0.geometry = some c3 := by
      cases h : cacheGet now cache i f0.geometry with
      | none => exact absurd h h0
      | some c3 => exact ⟨c3, rfl⟩
    simp only [samplePass, hc3]
    apply ih (i + 1) cache
    intro j f hj
    have h := hhit (j + 1) f hj
    have hidx : i + (j + 1) = (i + 1) + j := by omega
    rwa [hidx] at h

set_option maxRecDepth 4000 in
/-- Claim C9, counterexample: the claim says an unchanged collection
sampled twice issues zero terrain queries on the second pass, but dense
ground-route paths are rebuilt with fresh queries on every pass: a
single 2-vertex ground route, sampled twice at the same instant, issues
16 queries in the second pass even though its per-feature elevation pass
is fully served from the cache. -/
theorem second_pass_queries_counterexample :
    (sampleTerrain flatTerrain 0 [groundRouteFeature]
        (sampleTerrain flatTerrain 0 [groundRouteFeature] []).cache).queries = 16
      ∧ (sampleTerrain flatTerrain 0 [groundRouteFeature]
        (sampleTerrain flatTerrain 0 [groundRouteFeature] []).cache).queries ≠ 0 := by
  constructor
  · decide
  · decide

/-- Claim C9 as amended: for a collection sampled twice with terrain
enabled, starting from an empty cache and with every element's geometry
unchanged, the second pass issues zero terrain queries provided it runs
within the 30s cache TTL and the collection contains no groundRoute
elements; the per-feature elevation pass never queries for a cache-hit
feature, but dense ground-route paths are rebuilt with fresh queries on
every pass. -/
theorem second_pass_no_queries (q : TerrainQuery) (features : List Feature) (t1 t2 : ℤ)
    (hng : ∀ f ∈ features, f.properties.featureType ≠ some "groundRoute")
    (ht : t2 - t1 ≤ CACHE_MAX_AGE) :
    (sampleTerrain q t2 features (sampleTerrain q t1 features []).cache).queries = 0 := by
  have hfilter : (features.enum.filter fun p =>
      decide (p.2.properties.featureType = some "groundRoute")) = [] := by
    rw [List.filter_eq_nil_iff]
    intro p hp
    have hmem : p.2 ∈ features := by
      have h1 := List.mem_map_of_mem Prod.snd hp
      rwa [List.enum_eq_enumFrom, List.enumFrom_map_snd] at h1
    simp [hng p.2 hmem]
  simp only [sampleTerrain, hfilter, List.map_nil, List.sum_nil, Nat.add_zero]
  apply samplePass_count_zero
  intro j f hj
  have hfind := cacheFind_after_samplePass q t1 features 0 []
    (fun _ _ _ => rfl) j f hj
  rw [cacheGet, hfind]
  show (if t2 - t1 > CACHE_MAX_AGE then (none : Option Coords)
      else some (addElevationToCoords q f.geometry)) ≠ none
  rw [if_neg (by rw [CACHE_MAX_AGE] at ht ⊢; omega)]
  simp

theorem second_pass_no_queries_witness :
    (sampleTerrain flatTerrain 0 [nfzSquareFeature]
      (sampleTerrain flatTerrain 0 [nfzSquareFeature] []).cache).queries = 0 :=
  second_pass_no_queries flatTerrain [nfzSquareFeature] 0 0 (by decide) (by decide)
